import Mathlib

/-!
Verification development for the LightAutoML tabular presets module
(`lightautoml/automl/presets/tabular_presets.py`).

The Python classes `TabularAutoML` and `TabularUtilizedAutoML` are embedded
shallowly: the mutable preset configuration becomes an explicit `Preset`
record, in-place mutation becomes state-passing, Python `None` becomes
`Option`, Python exceptions become an explicit error type, and float
constants become exact rationals.
-/

namespace TabularPresets

/-- Python exceptions that the embedded code can raise: `KeyError` from a
dictionary lookup (`self._time_scores[model_type]`) and `ValueError` from an
explicit `raise ValueError(...)`. -/
inductive PyErr where
  | keyError (key : String)
  | valueError (msg : String)
  deriving DecidableEq, Repr

/-- `TabularAutoML.tuning_params['max_tuning_iter']`: either the sentinel
string `'auto'` or a concrete integer. -/
inductive AutoInt where
  | auto
  | val (n : Int)
  deriving DecidableEq, Repr

/-- The slice of `TabularAutoML`'s configuration state that the embedded
methods read and write.  Field names follow the Python attribute paths:
e.g. `nested_cv_params_cv` is `self.nested_cv_params['cv']`. -/
structure Preset where
  task_name : String
  gpu_ids : Option String
  cpu_limit : Nat
  general_nested_cv : Bool
  general_skip_conn : Bool
  /-- `self.general_params['use_algos']`: `none` models the sentinel `'auto'`. -/
  general_use_algos : Option (List (List String))
  nested_cv_params_n_folds : Option ℚ
  nested_cv_params_cv : ℚ
  tuning_max_tuning_iter : AutoInt
  cb_task_type : String
  cb_devices : String
  cb_thread_count : Nat
  lgb_num_threads : Nat
  reader_n_jobs : Nat
  selection_mode : Int
  selection_importance_type : String
  selection_cutoff : ℚ
  selection_fit_on_holdout : Bool
  selection_feature_group_size : Nat
  selection_max_features_cnt_in_result : Nat
  deriving DecidableEq, Repr

/-- The class attribute `TabularAutoML._time_scores`: relative runtime rate
per model type.  Lookup returns `none` where Python's dict access raises
`KeyError`. -/
def timeScores : String → Option ℚ
  | "lgb" => some 1
  | "lgb_tuned" => some 3
  | "linear_l2" => some (7/10)
  | "cb" => some 2
  | "cb_tuned" => some 6
  | _ => none

/-- `TabularAutoML.get_time_score(n_level, model_type, nested)`.  The Python
default `nested=None` is `none`; the dict lookup's `KeyError` becomes
`Except.error`. -/
def get_time_score (p : Preset) (n_level : Nat) (model_type : String)
    (nested : Option Bool) : Except PyErr ℚ :=
  let nestedB := nested.getD p.general_nested_cv
  match timeScores model_type with
  | none => .error (.keyError model_type)
  | some score =>
    let mult : ℚ :=
      if nestedB then
        match p.nested_cv_params_n_folds with
        | some f => f
        | none => p.nested_cv_params_cv
      else 1
    let mult := if n_level > 1 then
        mult * (if p.general_skip_conn then 8/10 else 1/10)
      else mult
    let score := score * mult
    let score := if (model_type = "cb" ∨ model_type = "cb_tuned") ∧
        p.cb_task_type = "GPU" then score * (1/2) else score
    .ok score

/-- The default algorithm list that `infer_auto_params` installs when
`use_algos == 'auto'`. -/
def defaultUseAlgos : List String := ["lgb", "lgb_tuned", "linear_l2", "cb", "cb_tuned"]

/-- First mutation of `infer_auto_params`: resolve
`tuning_params['max_tuning_iter'] == 'auto'` by the row-count step
function. -/
def inferTuningIter (length : Nat) (p : Preset) : Preset :=
  { p with tuning_max_tuning_iter :=
    match p.tuning_max_tuning_iter with
    | .auto => .val (if length < 10000 then 100
        else if length < 30000 then 50
        else if length < 100000 then 10
        else 5)
    | v => v }

/-- Second mutation of `infer_auto_params`: resolve
`general_params['use_algos'] == 'auto'`. -/
def inferUseAlgos (multilevel_avail : Bool) (p : Preset) : Preset :=
  { p with general_use_algos :=
    match p.general_use_algos with
    | none =>
      some (if p.task_name = "multiclass" ∧ multilevel_avail then
          [defaultUseAlgos, ["linear_l2", "lgb"]]
        else [defaultUseAlgos])
    | v => v }

/-- Third mutation of `infer_auto_params`:
`if not nested_cv: nested_cv_params['cv'] = 1`. -/
def inferNestedCv (p : Preset) : Preset :=
  if !p.general_nested_cv then { p with nested_cv_params_cv := 1 } else p

/-- Fourth mutation of `infer_auto_params`: move catboost to GPU when
devices are detected and a device selector is configured (Python's
`if gpu_cnt > 0 and gpu_ids:` truthiness test). -/
def inferGpu (gpu_cnt : Nat) (p : Preset) : Preset :=
  match p.gpu_ids with
  | some ids =>
    if gpu_cnt > 0 ∧ ids ≠ "" then
      let ids := if ids = "all" then
          String.intercalate "," ((List.range gpu_cnt).map toString)
        else ids
      { p with cb_task_type := "GPU", cb_devices := ids.replace "," ":" }
    else p
  | none => p

/-- Fifth mutation of `infer_auto_params`: clamp every thread/worker count
to `min(os.cpu_count(), self.cpu_limit)`. -/
def inferThreads (os_cpu_count : Nat) (p : Preset) : Preset :=
  let cpu_cnt := min os_cpu_count p.cpu_limit
  { p with
    cb_thread_count := min p.cb_thread_count cpu_cnt,
    lgb_num_threads := min p.lgb_num_threads cpu_cnt,
    reader_n_jobs := min p.reader_n_jobs cpu_cnt }

/-- `TabularAutoML.infer_auto_params(train_data, multilevel_avail)`: the
five in-place mutations applied in source order.  The ambient facts the
Python reads from the environment are explicit arguments: `length` is
`train_data.shape[0]`, `gpu_cnt` is `torch.cuda.device_count()`,
`os_cpu_count` is `os.cpu_count()`.  The `torch.set_num_threads` call is a
process-global side effect carrying no preset state and is not
represented. -/
def infer_auto_params (p : Preset) (length : Nat) (multilevel_avail : Bool)
    (gpu_cnt : Nat) (os_cpu_count : Nat) : Preset :=
  inferThreads os_cpu_count
    (inferGpu gpu_cnt
      (inferNestedCv
        (inferUseAlgos multilevel_avail
          (inferTuningIter length p))))

/-- The importance estimator chosen inside `get_selector`. -/
inductive ImportanceEstimator where
  | permutation
  | modelBased
  deriving DecidableEq, Repr

/-- The `ImportanceCutoffSelector` stage built by `get_selector` for any
`mode > 0`, recording the parameters it is constructed with. -/
structure CutoffSelectorStage where
  time_score : ℚ
  importance : ImportanceEstimator
  cutoff : ℚ
  fit_on_holdout : Bool
  deriving DecidableEq, Repr

/-- The `NpIterativeFeatureSelector` stage that `get_selector` adds when
`mode == 2`. -/
structure IterativeSelectorStage where
  time_score : ℚ
  feature_group_size : Nat
  max_features_cnt_in_result : Nat
  deriving DecidableEq, Repr

/-- The value `get_selector` returns when it does not return `None`: either
a single cutoff selector or a `ComposedSelector` of the cutoff selector
followed by the iterative selector. -/
inductive Selector where
  | cutoff (c : CutoffSelectorStage)
  | composed (c : CutoffSelectorStage) (it : IterativeSelectorStage)
  deriving DecidableEq, Repr

/-- `TabularAutoML.get_selector(n_level)`.  Python returns `None`
(here `none`) when `mode <= 0`; the function body contains no `raise`, so
the embedding is total.  Both internal `get_time_score` calls use the key
`'lgb'` with `nested=False`, which cannot fail, so the `Except` layer of
`get_time_score` is discharged with `getD 0` (never taken). -/
def get_selector (p : Preset) (n_level : Nat := 1) : Option Selector :=
  let mode := p.selection_mode
  if mode > 0 then
    let time_score := (get_time_score p n_level "lgb" (some false)).toOption.getD 0
    let importance := if p.selection_importance_type = "permutation" then
        ImportanceEstimator.permutation
      else ImportanceEstimator.modelBased
    let pre_selector : Selector := .cutoff
      { time_score := time_score
        importance := importance
        cutoff := p.selection_cutoff
        fit_on_holdout := p.selection_fit_on_holdout }
    if mode = 2 then
      let time_score2 := (get_time_score p n_level "lgb" (some false)).toOption.getD 0
      match pre_selector with
      | .cutoff c =>
        some (.composed c
          { time_score := time_score2
            feature_group_size := p.selection_feature_group_size
            max_features_cnt_in_result := p.selection_max_features_cnt_in_result })
      | s => some s
    else some pre_selector
  else none

/-- Substring test, embedding Python's `'_tuned' in key`. -/
def strIn (sub s : String) : Bool := decide (sub.toList <:+: s.toList)

/-- Python's `key.split('_')[0]`: the prefix of `key` before the first
underscore, or the whole string when it has none. -/
def pySplitHead (k : String) : String :=
  String.mk (k.toList.takeWhile (fun c => c ≠ '_'))

/-- One ml_algo entry built by `get_gbms`: the base algorithm that was
dispatched on, the tuned flag (whether an `OptunaTuner` was paired), and the
time score handed to the unit's task timer. -/
structure GbmUnit where
  algo_key : String
  tuned : Bool
  time_score : ℚ
  deriving DecidableEq, Repr

/-- The `NestedTabularMLPipeline` assembled by `get_gbms`: the parallel
lists `ml_algos` and `force_calc` accumulated by the loop. -/
structure GbmPipe where
  ml_algos : List GbmUnit
  force_calc : List Bool
  deriving DecidableEq, Repr

/-- The loop body of `get_gbms` over `zip(keys, [True, False, False, False])`:
Python's `zip` stops at the shorter sequence, raising `KeyError` at the
`get_time_score` dict lookup for a key outside the cost table and
`ValueError('Wrong algo key')` when the key's base algorithm is neither
`'lgb'` nor `'cb'`. -/
def get_gbms_loop (p : Preset) (n_level : Nat) :
    List (String × Bool) → Except PyErr (List (GbmUnit × Bool))
  | [] => .ok []
  | (key, force) :: rest =>
    let tuned := strIn "_tuned" key
    let algo_key := pySplitHead key
    match get_time_score p n_level key none with
    | .error e => .error e
    | .ok time_score =>
      if algo_key = "lgb" ∨ algo_key = "cb" then
        match get_gbms_loop p n_level rest with
        | .error e => .error e
        | .ok tail => .ok ((⟨algo_key, tuned, time_score⟩, force) :: tail)
      else .error (.valueError "Wrong algo key")

/-- `TabularAutoML.get_gbms(keys, n_level, pre_selector)`: runs the loop and
splits the accumulated pairs into the `ml_algos` and `force_calc` lists of
the resulting pipeline. -/
def get_gbms (p : Preset) (keys : List String) (n_level : Nat := 1) :
    Except PyErr GbmPipe :=
  (get_gbms_loop p n_level (keys.zip [true, false, false, false])).map
    fun l => { ml_algos := l.map Prod.fst, force_calc := l.map Prod.snd }

/-- The argument tuple that `TabularAutoML.fit_predict` forwards to
`super().fit_predict(train, roles=roles, cv_iter=cv_iter, valid_data=valid_data)`.
`Raw` is the caller-supplied readable source type, `Dataset` the type
produced by `read_data`, so the types show which form is forwarded. -/
structure FitPredictCall (Raw Dataset Roles CvIter : Type) where
  train : Dataset
  roles : Roles
  cv_iter : Option CvIter
  valid_data : Option Raw

/-- `TabularAutoML.fit_predict(train_data, roles, train_features, cv_iter,
valid_data, valid_features)` up to the `super().fit_predict` call.  The
external collaborators are explicit arguments: `read_data f src` embeds
`read_data(src, f, self.cpu_limit, ...)`, `merge a b` embeds the dict merge
`{**a, **b}`, `emptyRoles` embeds `{}`.  The dataset read from `valid_data`
is bound to a local (`data, _ = read_data(...)`) that the rest of the body
never uses; the raw `valid_data` is forwarded instead. -/
def fit_predict_forward {Raw Dataset Roles CvIter Features : Type}
    (read_data : Raw → Option Features → Dataset × Option Roles)
    (merge : Roles → Roles → Roles) (emptyRoles : Roles)
    (train_data : Raw) (roles : Option Roles)
    (train_features : Option Features) (cv_iter : Option CvIter)
    (valid_data : Option Raw) (valid_features : Option Features) :
    FitPredictCall Raw Dataset Roles CvIter :=
  let roles := roles.getD emptyRoles
  let tr := read_data train_data train_features
  let roles := match tr.2 with
    | some upd => merge roles upd
    | none => roles
  let _valid_read := valid_data.map (fun vd => read_data vd valid_features)
  { train := tr.1, roles := roles, cv_iter := cv_iter, valid_data := valid_data }

/-- Modelled from the spec: the non-batched predict path of
`TabularAutoML.predict` composes `read_data` and the underlying engine's
`predict`, neither of which is in this module.  Per the reader contract and
§5 (each worker runs the full independent predict path; deterministic
reassembly), `read_data` on an in-memory frame yields its rows unchanged and
the engine predicts each row independently, so the path is a row-wise map. -/
def predict_nonbatched {Row Pred : Type} (engine : Row → Pred)
    (data : List Row) : List Pred :=
  data.map engine

/-- The `batch_size`-with-`n_jobs=1` path of `TabularAutoML.predict`:
`res = [self.predict(df, features_names) for df in data_generator]` — each
recursive call takes the non-batched path — followed by
`np.concatenate([x.data for x in res], axis=0)`. -/
def predict_batched {Row Pred : Type} (engine : Row → Pred)
    (batches : List (List Row)) : List Pred :=
  (batches.map (predict_nonbatched engine)).flatten

/-- The blender variants of `lightautoml.automl.blend` that
`TabularUtilizedAutoML.__init__` instantiates. -/
inductive Blender where
  | mean
  | weighted
  deriving DecidableEq, Repr

/-- The argument record of `TimeUtilization.__init__` as invoked by
`TabularUtilizedAutoML.__init__` (config sources and the two blenders, plus
the forwarded run policy). -/
structure TimeUtilizationArgs where
  configs_list : List String
  inner_blend : Blender
  outer_blend : Blender
  drop_last : Bool
  max_runs_per_config : Nat
  random_state : Nat
  deriving DecidableEq, Repr

/-- The file names joined onto `_base_dir/tabular_configs` for the default
`configs_list`. -/
def defaultConfigNames : List String :=
  ["conf_0_sel_type_0.yml", "conf_1_sel_type_1.yml",
   "conf_2_select_mode_1_no_typ.yml", "conf_3_sel_type_1_no_inter_lgbm.yml",
   "conf_4_sel_type_0_no_int.yml", "conf_5_sel_type_1_tuning_full.yml",
   "conf_6_sel_type_1_tuning_full_no_int_lgbm.yml"]

/-- `TabularUtilizedAutoML.__init__(task, ..., configs_list, drop_last,
max_runs_per_config, random_state)`.  In the source, the entire tail of the
body — default list construction, both blender constructions and the
`super().__init__(...)` call — sits inside `if configs_list is None:`, so a
caller-supplied `configs_list` skips `TimeUtilization.__init__` entirely and
the instance is left uninitialized; `none` models that absent initialization.
`base_dir` embeds `_base_dir = os.path.dirname(__file__)`. -/
def tabularUtilized_init (base_dir : String) (configs_list : Option (List String))
    (drop_last : Bool := true) (max_runs_per_config : Nat := 5)
    (random_state : Nat := 42) : Option TimeUtilizationArgs :=
  match configs_list with
  | none =>
    let cfgs := defaultConfigNames.map (fun x => base_dir ++ "/tabular_configs/" ++ x)
    some ⟨cfgs, .mean, .weighted, drop_last, max_runs_per_config, random_state⟩
  | some _ => none

/-- The fold multiplier that `get_time_score` applies when `nested` resolves
to true: `n_folds` when configured, else `cv`. -/
def foldMult (p : Preset) : ℚ :=
  match p.nested_cv_params_n_folds with
  | some f => f
  | none => p.nested_cv_params_cv

/-- The numeric value of a `get_time_score` result, defaulting the error
case to `0`; used to state inequalities for keys known to be in the table. -/
def scoreQ (p : Preset) (n_level : Nat) (model_type : String)
    (nested : Option Bool) : ℚ :=
  (get_time_score p n_level model_type nested).toOption.getD 0

/-- The keys on which `get_gbms` can build a unit: cost-table keys whose
base algorithm is `lgb` or `cb`. -/
def canonKeys : List String := ["lgb", "lgb_tuned", "cb", "cb_tuned"]

/-- A concrete preset configuration used to instantiate theorems: nested CV
enabled with `cv = 5` repeats and no fixed `n_folds`, skip connections off,
selection mode 1, CPU catboost. -/
def samplePreset : Preset where
  task_name := "binary"
  gpu_ids := none
  cpu_limit := 4
  general_nested_cv := true
  general_skip_conn := false
  general_use_algos := none
  nested_cv_params_n_folds := none
  nested_cv_params_cv := 5
  tuning_max_tuning_iter := .auto
  cb_task_type := "CPU"
  cb_devices := ""
  cb_thread_count := 4
  lgb_num_threads := 4
  reader_n_jobs := 4
  selection_mode := 1
  selection_importance_type := "permutation"
  selection_cutoff := 0
  selection_fit_on_holdout := true
  selection_feature_group_size := 12
  selection_max_features_cnt_in_result := 50

end TabularPresets

namespace TabularPresets

/-- C1: the spec has `TabularUtilizedAutoML.__init__` initialize the runner
(`TimeUtilization.__init__` with a mean inner and weighted outer blender)
over any ordered list of configuration sources, caller-supplied or
defaulted.  In the source the whole initialization sits inside
`if configs_list is None:`, so a caller-supplied list yields no
initialization at all, while the defaulted path does initialize over the
seven bundled configs with the mean/weighted blender pair. -/
theorem tabularUtilized_init_skips_super_on_custom_configs :
    tabularUtilized_init "base" (some ["my_conf.yml"]) true 5 42 = none ∧
    tabularUtilized_init "base" none true 5 42 =
      some ⟨defaultConfigNames.map (fun x => "base" ++ "/tabular_configs/" ++ x),
        .mean, .weighted, true, 5, 42⟩ :=
  ⟨rfl, rfl⟩

/-- The GPU stage only rewrites the catboost device fields. -/
theorem inferGpu_fields (g : Nat) (p : Preset) :
    (inferGpu g p).tuning_max_tuning_iter = p.tuning_max_tuning_iter ∧
    (inferGpu g p).general_nested_cv = p.general_nested_cv ∧
    (inferGpu g p).general_skip_conn = p.general_skip_conn ∧
    (inferGpu g p).nested_cv_params_cv = p.nested_cv_params_cv ∧
    (inferGpu g p).nested_cv_params_n_folds = p.nested_cv_params_n_folds := by
  unfold inferGpu
  cases p.gpu_ids <;> dsimp only [] <;> (try split) <;> simp

/-- The nested-CV stage only rewrites `nested_cv_params['cv']`. -/
theorem inferNestedCv_fields (p : Preset) :
    (inferNestedCv p).tuning_max_tuning_iter = p.tuning_max_tuning_iter ∧
    (inferNestedCv p).general_nested_cv = p.general_nested_cv ∧
    (inferNestedCv p).general_skip_conn = p.general_skip_conn ∧
    (inferNestedCv p).nested_cv_params_n_folds = p.nested_cv_params_n_folds ∧
    (inferNestedCv p).gpu_ids = p.gpu_ids ∧
    (inferNestedCv p).cb_task_type = p.cb_task_type := by
  unfold inferNestedCv
  split <;> simp

/-- C4: `infer_auto_params` resolves a `max_tuning_iter` of `'auto'` by the
step function of row count (`<10000 → 100`, `<30000 → 50`, `<100000 → 10`,
else `5`), and leaves a concrete value unchanged. -/
theorem infer_auto_params_tuning_iter (p : Preset) (length : Nat)
    (ml : Bool) (g c : Nat) :
    (infer_auto_params p length ml g c).tuning_max_tuning_iter =
      match p.tuning_max_tuning_iter with
      | .auto => .val (if length < 10000 then 100
          else if length < 30000 then 50
          else if length < 100000 then 10
          else 5)
      | .val n => .val n := by
  show (inferThreads c _).tuning_max_tuning_iter = _
  rw [show ∀ q, (inferThreads c q).tuning_max_tuning_iter =
      q.tuning_max_tuning_iter from fun _ => rfl]
  rw [(inferGpu_fields g _).1, (inferNestedCv_fields _).1]
  cases hT : p.tuning_max_tuning_iter <;>
    simp [inferUseAlgos, inferTuningIter, hT]

/-- C5 counterexample: the claim asserts `get_selector` fails with
`ValueError` for a mode outside `{0,1,2}`, but at `mode = 3` the source's
`if mode > 0` branch simply builds the single importance-cutoff selector —
identical to `mode = 1` behavior — and the function body contains no
`raise` at all. -/
theorem get_selector_mode_three_behaves_as_mode_one :
    get_selector { samplePreset with selection_mode := 3 } 1 =
      some (.cutoff ⟨1, .permutation, 0, true⟩) ∧
    get_selector { samplePreset with selection_mode := 3 } 1 =
      get_selector { samplePreset with selection_mode := 1 } 1 := by
  refine ⟨?_, rfl⟩
  simp [get_selector, get_time_score, samplePreset, timeScores, Except.toOption]

/-- C5 amended: `get_selector` returns `None` for `mode ≤ 0`, a composed
(cutoff then iterative) selector for `mode = 2`, and a single
importance-cutoff selector for every other positive mode; it never raises. -/
theorem get_selector_modes (p : Preset) (n : Nat) :
    (p.selection_mode ≤ 0 → get_selector p n = none) ∧
    (p.selection_mode = 2 → ∃ c it, get_selector p n = some (.composed c it)) ∧
    (0 < p.selection_mode → p.selection_mode ≠ 2 →
      ∃ c, get_selector p n = some (.cutoff c)) := by
  refine ⟨fun h => ?_, fun h => ?_, fun h1 h2 => ?_⟩
  · have : ¬ p.selection_mode > 0 := by omega
    simp [get_selector, this]
  · simp [get_selector, h]
  · simp [get_selector, h1, h2]

/-- C5 witness: the three mode branches at concrete presets. -/
theorem get_selector_modes_witness :
    get_selector { samplePreset with selection_mode := 0 } 1 = none ∧
    (∃ c it, get_selector { samplePreset with selection_mode := 2 } 1 =
      some (.composed c it)) ∧
    (∃ c, get_selector samplePreset 1 = some (.cutoff c)) :=
  ⟨(get_selector_modes { samplePreset with selection_mode := 0 } 1).1 (by decide),
   (get_selector_modes { samplePreset with selection_mode := 2 } 1).2.1 rfl,
   (get_selector_modes samplePreset 1).2.2 (by decide) (by decide)⟩

/-- Every entry of the relative-cost table is positive. -/
theorem timeScores_pos {m : String} {s : ℚ} (h : timeScores m = some s) :
    0 < s := by
  unfold timeScores at h
  split at h <;> simp_all <;> (subst h; norm_num)

/-- C2 counterexample: the claim asserts the estimate strictly decreases as
the level increases through `{1,2,3}`, but levels 2 and 3 both take the same
`n_level > 1` branch: with `cv = 5` repeats and skip-connections disabled,
`get_time_score` returns `5 * 0.1 = 0.5` at level 2 and at level 3 alike. -/
theorem get_time_score_level_two_eq_level_three :
    get_time_score samplePreset 2 "lgb" (some true) = .ok (1/2) ∧
    get_time_score samplePreset 3 "lgb" (some true) = .ok (1/2) := by
  constructor <;> (simp [get_time_score, samplePreset, timeScores]; norm_num)

/-- C2 amended: for every model type in the relative-cost table, with
`nested=True` and a positive fold multiplier, the level-2 and level-3
estimates are equal under either skip-connection setting (the budget drop
happens once, between level 1 and every deeper level), the level-2 estimate
with skip-connections disabled is strictly below the one with them enabled
(`0.1` vs `0.8`), which is strictly below the level-1 estimate, and the
level-1 estimate does not depend on the skip-connection flag. -/
theorem get_time_score_level_decay (p : Preset) (m : String) (s : ℚ)
    (hs : timeScores m = some s) (hf : 0 < foldMult p) :
    scoreQ { p with general_skip_conn := false } 2 m (some true) =
      scoreQ { p with general_skip_conn := false } 3 m (some true) ∧
    scoreQ { p with general_skip_conn := true } 2 m (some true) =
      scoreQ { p with general_skip_conn := true } 3 m (some true) ∧
    scoreQ { p with general_skip_conn := false } 2 m (some true) <
      scoreQ { p with general_skip_conn := true } 2 m (some true) ∧
    scoreQ { p with general_skip_conn := true } 2 m (some true) <
      scoreQ { p with general_skip_conn := true } 1 m (some true) ∧
    scoreQ { p with general_skip_conn := true } 1 m (some true) =
      scoreQ { p with general_skip_conn := false } 1 m (some true) := by
  have hpos : 0 < s := timeScores_pos hs
  cases hnf : p.nested_cv_params_n_folds with
  | some f =>
    simp only [foldMult, hnf] at hf
    simp only [scoreQ, get_time_score, hs, hnf, Option.getD, Except.toOption]
    by_cases hg : (m = "cb" ∨ m = "cb_tuned") ∧ p.cb_task_type = "GPU" <;>
      simp [hg] <;> norm_num <;>
      constructor <;> nlinarith [mul_pos hpos hf]
  | none =>
    simp only [foldMult, hnf] at hf
    simp only [scoreQ, get_time_score, hs, hnf, Option.getD, Except.toOption]
    by_cases hg : (m = "cb" ∨ m = "cb_tuned") ∧ p.cb_task_type = "GPU" <;>
      simp [hg] <;> norm_num <;>
      constructor <;> nlinarith [mul_pos hpos hf]

/-- C2 witness: the amended level-decay chain at the sample preset (model
type `lgb`, base score `1`, fold multiplier `5`). -/
theorem get_time_score_level_decay_witness :
    scoreQ { samplePreset with general_skip_conn := false } 2 "lgb" (some true) =
      scoreQ { samplePreset with general_skip_conn := false } 3 "lgb" (some true) ∧
    scoreQ { samplePreset with general_skip_conn := true } 2 "lgb" (some true) =
      scoreQ { samplePreset with general_skip_conn := true } 3 "lgb" (some true) ∧
    scoreQ { samplePreset with general_skip_conn := false } 2 "lgb" (some true) <
      scoreQ { samplePreset with general_skip_conn := true } 2 "lgb" (some true) ∧
    scoreQ { samplePreset with general_skip_conn := true } 2 "lgb" (some true) <
      scoreQ { samplePreset with general_skip_conn := true } 1 "lgb" (some true) ∧
    scoreQ { samplePreset with general_skip_conn := true } 1 "lgb" (some true) =
      scoreQ { samplePreset with general_skip_conn := false } 1 "lgb" (some true) :=
  get_time_score_level_decay samplePreset "lgb" 1 rfl
    (by norm_num [foldMult, samplePreset])

/-- `infer_auto_params` reads but never writes `general_nested_cv`. -/
theorem infer_auto_params_nested_cv_flag (p : Preset) (length : Nat)
    (ml : Bool) (g c : Nat) :
    (infer_auto_params p length ml g c).general_nested_cv =
      p.general_nested_cv := by
  show (inferThreads c _).general_nested_cv = _
  rw [show ∀ q, (inferThreads c q).general_nested_cv =
      q.general_nested_cv from fun _ => rfl]
  rw [(inferGpu_fields g _).2.1, (inferNestedCv_fields _).2.1]
  rfl

/-- C3: with nested cross-validation globally disabled, `infer_auto_params`
forces `nested_cv_params['cv']` to `1` whatever its prior value, and every
subsequent `get_time_score` call (the code passes `nested` as either the
`None` default or `False`, never `True`) yields a value unchanged under any
rewriting of the configured fold/repeat values — i.e. its fold multiplier
is `1`. -/
theorem infer_auto_params_nested_cv_override (p : Preset) (length : Nat)
    (ml : Bool) (g c : Nat) (h : p.general_nested_cv = false) :
    (infer_auto_params p length ml g c).nested_cv_params_cv = 1 ∧
    (∀ (nf : Option ℚ) (cv : ℚ) (lvl : Nat) (m : String) (nst : Option Bool),
      nst = none ∨ nst = some false →
      get_time_score { infer_auto_params p length ml g c with
          nested_cv_params_n_folds := nf, nested_cv_params_cv := cv } lvl m nst =
        get_time_score (infer_auto_params p length ml g c) lvl m nst) := by
  constructor
  · have hq : (inferUseAlgos ml (inferTuningIter length p)).general_nested_cv = false := h
    show (inferThreads c _).nested_cv_params_cv = 1
    rw [show ∀ q, (inferThreads c q).nested_cv_params_cv =
        q.nested_cv_params_cv from fun _ => rfl]
    rw [(inferGpu_fields g _).2.2.2.1]
    unfold inferNestedCv
    rw [hq]
    simp
  · intro nf cv lvl m nst hnst
    have hflag : (infer_auto_params p length ml g c).general_nested_cv = false :=
      (infer_auto_params_nested_cv_flag p length ml g c).trans h
    rcases hnst with rfl | rfl <;>
      simp [get_time_score, hflag]

/-- C3 witness: with nested CV disabled at the sample preset, inference
yields `cv = 1` and a concrete level-1 `lgb` estimate is unchanged by stale
fold configuration (`n_folds = 7`, `cv = 10`). -/
theorem infer_auto_params_nested_cv_override_witness :
    (infer_auto_params { samplePreset with general_nested_cv := false }
        5000 false 0 8).nested_cv_params_cv = 1 ∧
    get_time_score { infer_auto_params { samplePreset with general_nested_cv := false }
          5000 false 0 8 with
        nested_cv_params_n_folds := some 7, nested_cv_params_cv := 10 } 1 "lgb" none =
      get_time_score (infer_auto_params { samplePreset with general_nested_cv := false }
        5000 false 0 8) 1 "lgb" none := by
  have thm := infer_auto_params_nested_cv_override
    { samplePreset with general_nested_cv := false } 5000 false 0 8 rfl
  exact ⟨thm.1, thm.2 (some 7) 10 1 "lgb" none (Or.inl rfl)⟩

/-- Mapping the payload of an `Except` keeps the error. -/
theorem except_map_error_iff {α β γ : Type} (f : α → β) (x : Except γ α) (e : γ) :
    x.map f = .error e ↔ x = .error e := by
  cases x <;> simp [Except.map]

/-- Only the five table keys carry a cost-table entry. -/
theorem timeScores_isSome_mem {m : String} (h : timeScores m ≠ none) :
    m ∈ ["lgb", "lgb_tuned", "linear_l2", "cb", "cb_tuned"] := by
  unfold timeScores at h
  split at h <;> simp_all

/-- A canonical key has a cost-table entry and a `lgb`/`cb` base. -/
theorem canonKeys_spec {k : String} (h : k ∈ canonKeys) :
    (∃ s, timeScores k = some s) ∧
    (pySplitHead k = "lgb" ∨ pySplitHead k = "cb") := by
  simp only [canonKeys, List.mem_cons, List.not_mem_nil, or_false] at h
  rcases h with rfl | rfl | rfl | rfl <;> exact ⟨⟨_, rfl⟩, by decide⟩

/-- A non-canonical key either lacks a cost-table entry (so the dict lookup
raises `KeyError`) or is `linear_l2` (hitting the `ValueError`). -/
theorem not_canonKeys_spec {k : String} (h : k ∉ canonKeys) :
    timeScores k = none ∨ k = "linear_l2" := by
  by_cases hs : timeScores k = none
  · exact .inl hs
  · have hmem := timeScores_isSome_mem hs
    simp only [canonKeys, List.mem_cons, List.not_mem_nil, or_false] at h
    simp only [List.mem_cons, List.not_mem_nil, or_false] at hmem
    rcases hmem with rfl | rfl | rfl | rfl | rfl <;> simp_all

/-- `get_time_score` raises exactly the `KeyError` of the dict lookup. -/
theorem get_time_score_keyError (p : Preset) (n : Nat) (m : String)
    (nst : Option Bool) (h : timeScores m = none) :
    get_time_score p n m nst = .error (.keyError m) := by
  simp [get_time_score, h]

/-- `get_time_score` succeeds on every cost-table key. -/
theorem get_time_score_isOk (p : Preset) (n : Nat) (m : String)
    (nst : Option Bool) (s : ℚ) (h : timeScores m = some s) :
    ∃ q, get_time_score p n m nst = .ok q := by
  simp only [get_time_score, h]
  exact ⟨_, rfl⟩

/-- The only errors `get_time_score` returns are `KeyError`s on the looked
up key. -/
theorem get_time_score_error_inv (p : Preset) (n : Nat) (m : String)
    (nst : Option Bool) (e : PyErr)
    (h : get_time_score p n m nst = .error e) :
    e = .keyError m ∧ timeScores m = none := by
  cases hts : timeScores m with
  | none => simp [get_time_score, hts] at h; exact ⟨h.symm, rfl⟩
  | some s => simp [get_time_score, hts] at h

/-- A successful `get_gbms_loop` run preserves the force flags in order. -/
theorem get_gbms_loop_snd (p : Preset) (n : Nat) :
    ∀ (pairs : List (String × Bool)) (l : List (GbmUnit × Bool)),
      get_gbms_loop p n pairs = .ok l → l.map Prod.snd = pairs.map Prod.snd := by
  intro pairs
  induction pairs with
  | nil =>
    intro l h
    simp only [get_gbms_loop] at h
    cases h
    rfl
  | cons x rest ih =>
    intro l h
    obtain ⟨key, force⟩ := x
    rw [get_gbms_loop] at h
    split at h
    · cases h
    · split at h
      · split at h
        · cases h
        · rename_i tail hrec
          cases h
          simp [ih tail hrec]
      · cases h

/-- `get_gbms_loop` succeeds on canonical keys, producing one unit per
pair. -/
theorem get_gbms_loop_ok (p : Preset) (n : Nat) :
    ∀ (pairs : List (String × Bool)),
      (∀ x ∈ pairs, x.1 ∈ canonKeys) →
      ∃ l, get_gbms_loop p n pairs = .ok l ∧ l.length = pairs.length := by
  intro pairs
  induction pairs with
  | nil => exact fun _ => ⟨[], rfl, rfl⟩
  | cons x rest ih =>
    intro hc
    obtain ⟨key, force⟩ := x
    have hkc : key ∈ canonKeys := hc (key, force) (List.mem_cons_self _ _)
    obtain ⟨⟨s, hs⟩, hbase⟩ := canonKeys_spec hkc
    obtain ⟨q, hq⟩ := get_time_score_isOk p n key none s hs
    obtain ⟨tail, htail, hlen⟩ := ih (fun y hy => hc y (List.mem_cons_of_mem _ hy))
    refine ⟨(⟨pySplitHead key, strIn "_tuned" key, q⟩, force) :: tail, ?_,
      by simp [hlen]⟩
    rw [get_gbms_loop]
    simp only [hq]
    rw [if_pos hbase]
    simp only [htail]

/-- A failing `get_gbms_loop` run pinpoints a non-canonical key among the
processed pairs, with the Python exception type determined by whether the
key is in the cost table. -/
theorem get_gbms_loop_error (p : Preset) (n : Nat) :
    ∀ (pairs : List (String × Bool)) (e : PyErr),
      get_gbms_loop p n pairs = .error e →
      (∃ k, e = .keyError k ∧ timeScores k = none ∧ k ∈ pairs.map Prod.fst) ∨
      (e = .valueError "Wrong algo key" ∧ "linear_l2" ∈ pairs.map Prod.fst) := by
  intro pairs
  induction pairs with
  | nil => intro e h; simp only [get_gbms_loop] at h; cases h
  | cons x rest ih =>
    intro e h
    obtain ⟨key, force⟩ := x
    rw [get_gbms_loop] at h
    split at h
    · rename_i e0 hts
      cases h
      obtain ⟨he, hnone⟩ := get_time_score_error_inv p n key none _ hts
      exact .inl ⟨key, he, hnone, by simp⟩
    · rename_i s hts
      split at h
      · split at h
        · rename_i e1 hrec
          cases h
          rcases ih _ hrec with ⟨k, hk1, hk2, hk3⟩ | ⟨h1, h2⟩
          · exact .inl ⟨k, hk1, hk2, by simp [hk3]⟩
          · exact .inr ⟨h1, by simp [h2]⟩
        · cases h
      · rename_i hguard
        cases h
        have hkey : key ∉ canonKeys := fun hmem => hguard (canonKeys_spec hmem).2
        rcases not_canonKeys_spec hkey with hnone | rfl
        · rw [get_time_score_keyError p n key none hnone] at hts
          cases hts
        · exact .inr ⟨rfl, by simp⟩

/-- If every processed key is canonical the loop cannot fail; conversely a
non-canonical processed key forces a failure. -/
theorem get_gbms_loop_error_iff (p : Preset) (n : Nat) :
    ∀ (pairs : List (String × Bool)),
      (∃ e, get_gbms_loop p n pairs = .error e) ↔
      ∃ x ∈ pairs, x.1 ∉ canonKeys := by
  intro pairs
  induction pairs with
  | nil => simp [get_gbms_loop]
  | cons x rest ih =>
    obtain ⟨key, force⟩ := x
    constructor
    · rintro ⟨e, h⟩
      rw [get_gbms_loop] at h
      split at h
      · rename_i e0 hts
        obtain ⟨_, hnone⟩ := get_time_score_error_inv p n key none e0 hts
        refine ⟨(key, force), List.mem_cons_self _ _, fun hmem => ?_⟩
        obtain ⟨⟨s, hs⟩, _⟩ := canonKeys_spec hmem
        rw [hs] at hnone
        cases hnone
      · split at h
        · split at h
          · rename_i e1 hrec
            obtain ⟨y, hy, hyc⟩ := ih.mp ⟨e1, hrec⟩
            exact ⟨y, List.mem_cons_of_mem _ hy, hyc⟩
          · cases h
        · rename_i hguard
          refine ⟨(key, force), List.mem_cons_self _ _, fun hmem => ?_⟩
          exact hguard (canonKeys_spec hmem).2
    · rintro ⟨y, hy, hyc⟩
      rcases List.mem_cons.mp hy with rfl | hy'
      · rcases not_canonKeys_spec hyc with hnone | hl2
        · exact ⟨_, by rw [get_gbms_loop,
            get_time_score_keyError p n key none hnone]⟩
        · have hl2' : key = "linear_l2" := hl2
          subst hl2'
          have hbase : ¬ (pySplitHead "linear_l2" = "lgb" ∨
              pySplitHead "linear_l2" = "cb") := by decide
          obtain ⟨q, hq⟩ := get_time_score_isOk p n "linear_l2" none (7/10) rfl
          refine ⟨.valueError "Wrong algo key", ?_⟩
          rw [get_gbms_loop]
          simp only [hq]
          rw [if_neg hbase]
      · cases hts : get_time_score p n key none with
        | error e0 =>
          refine ⟨e0, ?_⟩
          rw [get_gbms_loop]
          simp only [hts]
        | ok s =>
          by_cases hbase : pySplitHead key = "lgb" ∨ pySplitHead key = "cb"
          · obtain ⟨e1, hrec⟩ := ih.mpr ⟨y, hy', hyc⟩
            refine ⟨e1, ?_⟩
            rw [get_gbms_loop]
            simp only [hts]
            rw [if_pos hbase]
            simp only [hrec]
          · refine ⟨.valueError "Wrong algo key", ?_⟩
            rw [get_gbms_loop]
            simp only [hts]
            rw [if_neg hbase]

/-- The first components of a zip are the first list truncated to the
second list's length. -/
theorem zip_map_fst {α β : Type} :
    ∀ (l1 : List α) (l2 : List β),
      (l1.zip l2).map Prod.fst = l1.take l2.length := by
  intro l1
  induction l1 with
  | nil => intro l2; simp
  | cons a l ih => intro l2; cases l2 <;> simp [ih]

/-- The force-flag prototype `[True, False, False, False]` zipped against a
non-empty key list starts with `true` and continues with `false`. -/
theorem zip_flags_snd (keys : List String) (hk : keys ≠ []) :
    ((keys.zip [true, false, false, false]).map Prod.snd).head? = some true ∧
    ∀ b ∈ ((keys.zip [true, false, false, false]).map Prod.snd).tail,
      b = false := by
  cases keys with
  | nil => exact absurd rfl hk
  | cons k ks =>
    refine ⟨rfl, fun b hb => ?_⟩
    simp only [List.zip_cons_cons, List.map_cons, List.tail_cons] at hb
    obtain ⟨⟨a, b'⟩, hmem, rfl⟩ := List.mem_map.mp hb
    have hb' := (List.of_mem_zip hmem).2
    simpa using hb'

/-- C7: for every non-empty requested key sequence, among the units
actually built by `get_gbms` the force-calc flag is `True` for the first
and `False` for every later one. -/
theorem get_gbms_force_calc (p : Preset) (n : Nat) (keys : List String)
    (pipe : GbmPipe) (hk : keys ≠ []) (h : get_gbms p keys n = .ok pipe) :
    pipe.force_calc.head? = some true ∧
    ∀ b ∈ pipe.force_calc.tail, b = false := by
  obtain ⟨l, hl, hpipe⟩ : ∃ l,
      get_gbms_loop p n (keys.zip [true, false, false, false]) = .ok l ∧
      pipe = ⟨l.map Prod.fst, l.map Prod.snd⟩ := by
    unfold get_gbms at h
    cases hloop : get_gbms_loop p n (keys.zip [true, false, false, false]) with
    | error e => rw [hloop] at h; cases h
    | ok l =>
      rw [hloop] at h
      simp only [Except.map] at h
      cases h
      exact ⟨l, rfl, rfl⟩
  subst hpipe
  have hsnd := get_gbms_loop_snd p n _ l hl
  have hflags := zip_flags_snd keys hk
  simp only [GbmPipe.force_calc, hsnd]
  exact hflags

/-- C7 witness: two valid keys at the sample preset build `[True, False]`
flags. -/
theorem get_gbms_force_calc_witness :
    (GbmPipe.mk [⟨"lgb", false, 5⟩, ⟨"cb", false, 10⟩]
      [true, false]).force_calc.head? = some true ∧
    ∀ b ∈ (GbmPipe.mk [⟨"lgb", false, 5⟩, ⟨"cb", false, 10⟩]
      [true, false]).force_calc.tail, b = false :=
  get_gbms_force_calc samplePreset 1 ["lgb", "cb"] _ (by simp)
    (by simp [get_gbms, get_gbms_loop, strIn, pySplitHead, get_time_score,
        timeScores, samplePreset, Except.map]
        norm_num
        decide)

/-- C10: `get_gbms` builds exactly `min(len(keys), 4)` units — the `zip`
against the four-element force prototype silently drops every key after the
fourth, producing neither a unit nor an error for it (the hypothesis
constrains only the first four keys; later keys are arbitrary). -/
theorem get_gbms_at_most_four (p : Preset) (n : Nat) (keys : List String)
    (h : ∀ k ∈ keys.take 4, k ∈ canonKeys) :
    ∃ pipe, get_gbms p keys n = .ok pipe ∧
      pipe.ml_algos.length = min keys.length 4 ∧
      pipe.force_calc.length = min keys.length 4 := by
  have hzip : ∀ x ∈ keys.zip [true, false, false, false], x.1 ∈ canonKeys := by
    intro x hx
    apply h
    have hm : x.1 ∈ (keys.zip [true, false, false, false]).map Prod.fst :=
      List.mem_map_of_mem _ hx
    rwa [zip_map_fst] at hm
  obtain ⟨l, hl, hlen⟩ := get_gbms_loop_ok p n _ hzip
  refine ⟨⟨l.map Prod.fst, l.map Prod.snd⟩, ?_, ?_, ?_⟩
  · unfold get_gbms
    rw [hl]
    rfl
  · simp [hlen]
  · simp [hlen]

/-- C10 witness: five keys, the fifth not even a valid algorithm key, still
build exactly four units. -/
theorem get_gbms_at_most_four_witness :
    ∃ pipe, get_gbms samplePreset
        ["lgb", "lgb_tuned", "cb", "cb_tuned", "xgb"] 1 = .ok pipe ∧
      pipe.ml_algos.length =
        min (["lgb", "lgb_tuned", "cb", "cb_tuned", "xgb"] : List String).length 4 ∧
      pipe.force_calc.length =
        min (["lgb", "lgb_tuned", "cb", "cb_tuned", "xgb"] : List String).length 4 :=
  get_gbms_at_most_four samplePreset 1 _ (by decide)

/-- C6 counterexample: the claim asserts `get_gbms` raises iff some key in
the sequence has a base algorithm other than `lgb`/`cb`, but the fifth key
`xgb` falls outside `zip(keys, [True, False, False, False])` and the call
succeeds, returning four `lgb` units. -/
theorem get_gbms_bad_fifth_key_ok :
    get_gbms samplePreset ["lgb", "lgb", "lgb", "lgb", "xgb"] 1 =
      .ok ⟨[⟨"lgb", false, 5⟩, ⟨"lgb", false, 5⟩, ⟨"lgb", false, 5⟩,
          ⟨"lgb", false, 5⟩],
        [true, false, false, false]⟩ := by
  simp [get_gbms, get_gbms_loop, strIn, pySplitHead, get_time_score,
    timeScores, samplePreset, Except.map]
  decide

/-- C6 amended: `get_gbms` fails iff one of the first four requested keys is
outside `{lgb, lgb_tuned, cb, cb_tuned}`; for an offending key outside the
cost table the failure is the dict lookup's `KeyError` (raised at the
`get_time_score` call, before the algorithm-key check), and the
`ValueError('Wrong algo key')` occurs exactly for the in-table key
`linear_l2`; either way no model is built for any key past the fourth, and
the function never trains — it only assembles units. -/
theorem get_gbms_error_spec (p : Preset) (n : Nat) (keys : List String) :
    ((∃ e, get_gbms p keys n = .error e) ↔
      ∃ k ∈ keys.take 4, k ∉ canonKeys) ∧
    (∀ e, get_gbms p keys n = .error e →
      (∃ k, e = .keyError k ∧ timeScores k = none ∧ k ∈ keys.take 4) ∨
      (e = .valueError "Wrong algo key" ∧ "linear_l2" ∈ keys.take 4)) := by
  have hfst : (keys.zip [true, false, false, false]).map Prod.fst =
      keys.take 4 := zip_map_fst keys _
  constructor
  · constructor
    · rintro ⟨e, h⟩
      unfold get_gbms at h
      have hle : ∃ e, get_gbms_loop p n
          (keys.zip [true, false, false, false]) = .error e :=
        ⟨e, (except_map_error_iff _ _ _).mp h⟩
      obtain ⟨x, hx, hxc⟩ := (get_gbms_loop_error_iff p n _).mp hle
      exact ⟨x.1, hfst ▸ List.mem_map_of_mem _ hx, hxc⟩
    · rintro ⟨k, hk, hkc⟩
      rw [← hfst] at hk
      obtain ⟨⟨a, b⟩, hab, rfl⟩ := List.mem_map.mp hk
      obtain ⟨e, he⟩ := (get_gbms_loop_error_iff p n _).mpr ⟨(a, b), hab, hkc⟩
      refine ⟨e, ?_⟩
      unfold get_gbms
      exact (except_map_error_iff _ _ _).mpr he
  · intro e h
    unfold get_gbms at h
    have he := (except_map_error_iff _ _ _).mp h
    rcases get_gbms_loop_error p n _ e he with ⟨k, h1, h2, h3⟩ | ⟨h1, h2⟩
    · exact .inl ⟨k, h1, h2, hfst ▸ h3⟩
    · exact .inr ⟨h1, hfst ▸ h2⟩

/-- C6 witness: an unknown key among the first four fails, and the
`linear_l2` key raises exactly the `ValueError`. -/
theorem get_gbms_error_spec_witness :
    (∃ e, get_gbms samplePreset ["xgb"] 1 = .error e) ∧
    ((∃ k, PyErr.valueError "Wrong algo key" = .keyError k ∧
        timeScores k = none ∧ k ∈ (["linear_l2"] : List String).take 4) ∨
      (PyErr.valueError "Wrong algo key" = .valueError "Wrong algo key" ∧
        "linear_l2" ∈ (["linear_l2"] : List String).take 4)) :=
  ⟨(get_gbms_error_spec samplePreset 1 ["xgb"]).1.mpr
      ⟨"xgb", by decide, by decide⟩,
   (get_gbms_error_spec samplePreset 1 ["linear_l2"]).2 _
      (by simp [get_gbms, get_gbms_loop, strIn, pySplitHead, get_time_score,
            timeScores, samplePreset, Except.map])⟩

/-- C8: with `n_jobs = 1`, the batched predict path — one recursive
non-batched predict per batch, concatenated in original batch order —
agrees row-for-row with a single non-batched call on the whole dataset,
for every dataset and every partition of it into batches. -/
theorem predict_batched_eq {Row Pred : Type} (engine : Row → Pred)
    (data : List Row) (batches : List (List Row))
    (h : batches.flatten = data) :
    predict_batched engine batches = predict_nonbatched engine data := by
  subst h
  induction batches with
  | nil => rfl
  | cons b bs ih =>
    simp [predict_batched, predict_nonbatched] at ih ⊢
    exact ih

/-- C8 witness: a four-row dataset split `[[1, 2], [3], [4]]` predicts as
the whole. -/
theorem predict_batched_eq_witness :
    predict_batched (fun n : Nat => n + 1) [[1, 2], [3], [4]] =
      predict_nonbatched (fun n : Nat => n + 1) [1, 2, 3, 4] :=
  predict_batched_eq (fun n : Nat => n + 1) [1, 2, 3, 4] [[1, 2], [3], [4]]
    (by decide)

/-- C9: `fit_predict` forwards the raw, unconverted `valid_data` object to
`super().fit_predict` while forwarding the training data in its
read/converted form, and the forwarded call is unchanged under any change
of the reader's behaviour away from the training source — the dataset read
from `valid_data` is dead. -/
theorem fit_predict_forwards_raw_valid
    {Raw Dataset Roles CvIter Features : Type}
    (read_data : Raw → Option Features → Dataset × Option Roles)
    (merge : Roles → Roles → Roles) (emptyRoles : Roles)
    (train_data : Raw) (roles : Option Roles)
    (train_features : Option Features) (cv_iter : Option CvIter)
    (vd : Raw) (valid_features : Option Features) :
    (fit_predict_forward read_data merge emptyRoles train_data roles
        train_features cv_iter (some vd) valid_features).valid_data = some vd ∧
    (fit_predict_forward read_data merge emptyRoles train_data roles
        train_features cv_iter (some vd) valid_features).train =
      (read_data train_data train_features).1 ∧
    ∀ read_data' : Raw → Option Features → Dataset × Option Roles,
      read_data' train_data train_features =
        read_data train_data train_features →
      fit_predict_forward read_data' merge emptyRoles train_data roles
          train_features cv_iter (some vd) valid_features =
        fit_predict_forward read_data merge emptyRoles train_data roles
          train_features cv_iter (some vd) valid_features := by
  refine ⟨rfl, rfl, fun rd' hrd => ?_⟩
  simp [fit_predict_forward, hrd]

/-- C9 witness: a concrete reader on natural numbers; a second reader that
converts the validation source differently yields the identical forwarded
call. -/
theorem fit_predict_forwards_raw_valid_witness :
    (fit_predict_forward (fun (r : Nat) (_ : Option Nat) => (r + 1, some r))
        (fun _ b => b) 0 10 none none (none : Option Nat) (some 7)
        none).valid_data = some 7 ∧
    (fit_predict_forward (fun (r : Nat) (_ : Option Nat) => (r + 1, some r))
        (fun _ b => b) 0 10 none none (none : Option Nat) (some 7)
        none).train =
      ((fun (r : Nat) (_ : Option Nat) => (r + 1, some r)) 10 none).1 ∧
    fit_predict_forward (fun (r : Nat) (_ : Option Nat) =>
        (if r = 10 then (r + 1, some r) else (0, none)))
        (fun _ b => b) 0 10 none none (none : Option Nat) (some 7) none =
      fit_predict_forward (fun (r : Nat) (_ : Option Nat) => (r + 1, some r))
        (fun _ b => b) 0 10 none none (none : Option Nat) (some 7) none := by
  have thm := fit_predict_forwards_raw_valid
    (fun (r : Nat) (_ : Option Nat) => (r + 1, some r))
    (fun _ b => b) 0 10 none none (none : Option Nat) 7 none
  exact ⟨thm.1, thm.2.1, thm.2.2 _ (by norm_num)⟩

end TabularPresets
